import Mathlib

/-!
Verification of the face-recognition core (tracking, identity confirmation,
adaptive threshold controller) of the Computer-Vision-Projects repository.

The Python source is shallowly embedded: dictionaries become structures or
association lists, floats become exact rationals (ℚ), the Python
ZeroDivisionError becomes an Option result, and wall-clock timestamps are
abstracted away (they never influence the logic under verification).
-/

namespace FaceRec

/- The Batteries rational-number operations are irreducible by default,
which blocks `decide` on concrete rational computations; restore the
default transparency (the kernel re-checks every such proof anyway). -/
attribute [local semireducible] Rat.add Rat.mul Rat.inv Rat.sub Rat.ofScientific

/-! ## Bounding boxes and IoU (src/recognize_face.py, get_iou, lines 55-65) -/

/-- An axis-aligned box given as corner coordinates (x1, y1, x2, y2),
as used by `get_iou` in recognize_face.py.  Coordinates are integers
because the caller builds boxes with `list(map(int, face[:4]))`. -/
structure Box where
  x1 : Int
  y1 : Int
  x2 : Int
  y2 : Int
deriving DecidableEq

/-- `interArea = max(0, xB - xA) * max(0, yB - yA)` from get_iou. -/
def interArea (a b : Box) : Int :=
  max 0 (min a.x2 b.x2 - max a.x1 b.x1) * max 0 (min a.y2 b.y2 - max a.y1 b.y1)

/-- `boxAArea = (boxA[2] - boxA[0]) * (boxA[3] - boxA[1])` from get_iou. -/
def boxArea (a : Box) : Int :=
  (a.x2 - a.x1) * (a.y2 - a.y1)

/-- The IoU denominator `boxAArea + boxBArea - interArea`. -/
def iouDenom (a b : Box) : Int :=
  boxArea a + boxArea b - interArea a b

/-- Embedding of `get_iou(boxA, boxB)`.  The Python body divides
unconditionally: `iou = interArea / float(boxAArea + boxBArea - interArea)`.
When the denominator is zero Python raises ZeroDivisionError, modelled
here as `none`; otherwise the exact rational quotient is returned. -/
def get_iou (a b : Box) : Option ℚ :=
  if iouDenom a b = 0 then none
  else some ((interArea a b : ℚ) / (iouDenom a b : ℚ))

/-- A box of non-positive area is flat or inverted along some axis. -/
theorem boxArea_nonpos_factor {a : Box} (h : boxArea a ≤ 0) :
    a.x2 - a.x1 ≤ 0 ∨ a.y2 - a.y1 ≤ 0 := by
  by_contra hc
  push_neg at hc
  exact absurd h (not_le.mpr (mul_pos hc.1 hc.2))

/-- If either box has non-positive area, the intersection area is zero. -/
theorem interArea_eq_zero_of_nonpos {a b : Box}
    (h : boxArea a ≤ 0 ∨ boxArea b ≤ 0) : interArea a b = 0 := by
  unfold interArea
  rcases h with h | h
  · rcases boxArea_nonpos_factor h with hx | hy
    · have h1 : min a.x2 b.x2 - max a.x1 b.x1 ≤ 0 := by
        have := min_le_left a.x2 b.x2
        have := le_max_left a.x1 b.x1
        omega
      rw [max_eq_left h1, zero_mul]
    · have h1 : min a.y2 b.y2 - max a.y1 b.y1 ≤ 0 := by
        have := min_le_left a.y2 b.y2
        have := le_max_left a.y1 b.y1
        omega
      rw [max_eq_left h1, mul_zero]
  · rcases boxArea_nonpos_factor h with hx | hy
    · have h1 : min a.x2 b.x2 - max a.x1 b.x1 ≤ 0 := by
        have := min_le_right a.x2 b.x2
        have := le_max_right a.x1 b.x1
        omega
      rw [max_eq_left h1, zero_mul]
    · have h1 : min a.y2 b.y2 - max a.y1 b.y1 ≤ 0 := by
        have := min_le_right a.y2 b.y2
        have := le_max_right a.y1 b.y1
        omega
      rw [max_eq_left h1, mul_zero]

/-- C2 counterexample: on two degenerate (zero-area) boxes, `get_iou` does
not return 0 — the denominator is 0 and the Python code raises
ZeroDivisionError (modelled as `none`), so the function is not total and
does not define IoU = 0 for non-positive areas. -/
theorem C2_iou_counterexample :
    boxArea ⟨0, 0, 0, 0⟩ ≤ 0 ∧
    get_iou ⟨0, 0, 0, 0⟩ ⟨0, 0, 0, 0⟩ = none ∧
    get_iou ⟨0, 0, 0, 0⟩ ⟨0, 0, 0, 0⟩ ≠ some 0 := by
  refine ⟨by decide, by decide, by decide⟩

/-- C2 amended: `get_iou` performs the division unconditionally.  It is
undefined (ZeroDivisionError, modelled `none`) exactly when
`areaA + areaB - interArea = 0`; whenever the denominator is nonzero it
returns `interArea / (areaA + areaB - interArea)`, and in that case a
non-positive area of either box forces the result 0 (because the
intersection area is then 0). -/
theorem C2_iou_unguarded_division (a b : Box) :
    (iouDenom a b = 0 → get_iou a b = none) ∧
    (iouDenom a b ≠ 0 →
      get_iou a b = some ((interArea a b : ℚ) / (iouDenom a b : ℚ))) ∧
    ((boxArea a ≤ 0 ∨ boxArea b ≤ 0) → iouDenom a b ≠ 0 →
      get_iou a b = some 0) := by
  refine ⟨fun h => by simp [get_iou, h], fun h => by simp [get_iou, h], ?_⟩
  intro hdeg hden
  have hz : interArea a b = 0 := interArea_eq_zero_of_nonpos hdeg
  simp [get_iou, hden, hz]

/-- C2 witness: a zero-area box against a proper box gives IoU 0. -/
theorem C2_iou_witness :
    get_iou ⟨0, 0, 0, 5⟩ ⟨0, 0, 2, 2⟩ = some 0 :=
  (C2_iou_unguarded_division ⟨0, 0, 0, 5⟩ ⟨0, 0, 2, 2⟩).2.2
    (Or.inl (by decide)) (by decide)

/-! ## Tracks and the identity-confirmation logic
(src/recognize_face.py, lines 137-145 creation, 163-188 per-frame update) -/

/-- `PREDICTION_HISTORY_SIZE = 10` from recognize_face.py. -/
def PREDICTION_HISTORY_SIZE : Nat := 10

/-- `CONFIRMATION_THRESHOLD = 3` from recognize_face.py. -/
def CONFIRMATION_THRESHOLD : Nat := 3

/-- The per-track state mutated by the per-frame recognition loop:
`predictions` (a deque with maxlen PREDICTION_HISTORY_SIZE, oldest first),
`confirmed_name`, `confirmation_streak`, and the two one-shot flags. -/
structure Track where
  predictions : List String
  confirmed_name : String
  confirmation_streak : Nat
  log_and_audio_triggered : Bool
  alert_sent : Bool
deriving DecidableEq

/-- A freshly created tracker (recognize_face.py lines 137-145). -/
def freshTrack : Track :=
  { predictions := []
    confirmed_name := "Unknown"
    confirmation_streak := 0
    log_and_audio_triggered := false
    alert_sent := false }

/-- `deque(maxlen=N).append`: append on the right, evict one element on the
left when the length would exceed the capacity. -/
def dequeAppend (xs : List String) (x : String) : List String :=
  let ys := xs ++ [x]
  if PREDICTION_HISTORY_SIZE < ys.length then ys.drop 1 else ys

/-- Occurrence count of `x` in `xs` (Counter's count). -/
def occCount (xs : List String) (x : String) : Nat :=
  (xs.filter (fun y => y = x)).length

/-- The distinct elements of `xs` in order of first occurrence — the key
insertion order of Python's `Counter(xs)`. -/
def dedupFirst (xs : List String) : List String :=
  xs.foldl (fun acc x => if x ∈ acc then acc else acc ++ [x]) []

/-- `Counter(xs).most_common(1)[0][0]`: the element of maximal count,
ties broken by earliest first occurrence (Counter preserves insertion
order and `most_common` sorts stably by count, descending). -/
def majority (xs : List String) : Option String :=
  match dedupFirst xs with
  | [] => none
  | c :: cs =>
      some (cs.foldl (fun best x =>
        if occCount xs best < occCount xs x then x else best) c)

/-- One per-frame observation input: the best-matching catalog name, its
similarity score, and the active confidence threshold. -/
structure ObsInput where
  name : String
  score : ℚ
  threshold : ℚ

/-- Result of one observation: the updated track, the displayed name, and
whether the one-time entry event (log_event + welcome) fired this frame. -/
structure ObsResult where
  track : Track
  display_name : String
  entry_event : Bool

/-- The appended prediction for one frame: the candidate name when the
score clears the threshold, else "Unknown" (recognize_face.py 163-167). -/
def appendedPred (i : ObsInput) : String :=
  if i.threshold < i.score then i.name else "Unknown"

/-- Embedding of recognize_face.py lines 163-188 for one track and one
frame: threshold the raw prediction into the history, majority-vote the
history, and run the confirmation / entry-event logic. -/
def observe (t : Track) (i : ObsInput) : ObsResult :=
  let t1 : Track := { t with predictions := dequeAppend t.predictions (appendedPred i) }
  match majority t1.predictions with
  | none => { track := t1, display_name := "Unknown", entry_event := false }
  | some candidate =>
      if t1.confirmed_name ≠ "Unknown" then
        { track := t1, display_name := t1.confirmed_name, entry_event := false }
      else if candidate ≠ "Unknown" then
        let t2 : Track := { t1 with confirmation_streak := t1.confirmation_streak + 1 }
        if CONFIRMATION_THRESHOLD ≤ t2.confirmation_streak then
          { track := { t2 with confirmed_name := candidate, log_and_audio_triggered := true }
            display_name := candidate
            entry_event := !t2.log_and_audio_triggered }
        else
          { track := t2, display_name := "Unknown", entry_event := false }
      else
        { track := t1, display_name := "Unknown", entry_event := false }

/-- Run a sequence of observations; return the final track and the number
of entry events fired along the way. -/
def runObserve (t : Track) : List ObsInput → Track × Nat
  | [] => (t, 0)
  | i :: is =>
      let r := observe t i
      let p := runObserve r.track is
      (p.1, (if r.entry_event then 1 else 0) + p.2)

/-- The majority candidate of the post-append history for one step. -/
def majorityAfter (t : Track) (i : ObsInput) : Option String :=
  majority (dequeAppend t.predictions (appendedPred i))

/-- The per-frame majority candidates produced along a run ("Unknown" for
the impossible empty-history case). -/
def majorityTrace (t : Track) : List ObsInput → List String
  | [] => []
  | i :: is =>
      (majorityAfter t i).getD "Unknown" :: majorityTrace (observe t i).track is

/-- The number of most-recent consecutive entries of `majors`
(chronological order) that equal the same non-Unknown name — the quantity
the specification calls `confirmation_streak`. -/
def trailingSameStreak (majors : List String) : Nat :=
  match majors.reverse with
  | [] => 0
  | m :: _ =>
      if m = "Unknown" then 0
      else (majors.reverse.takeWhile (fun x => x = m)).length

/-- If a track is already confirmed, one observation changes neither its
confirmed name nor fires the entry event (recognize_face.py line 176-177:
the confirmed branch only reads `confirmed_name`). -/
theorem observe_confirmed_frozen (t : Track) (i : ObsInput)
    (h : t.confirmed_name ≠ "Unknown") :
    (observe t i).track.confirmed_name = t.confirmed_name ∧
    (observe t i).entry_event = false := by
  unfold observe
  cases hm : majority (dequeAppend t.predictions (appendedPred i)) with
  | none => simp [hm]
  | some c => simp [hm, h]

/-- The entry event only fires in the step that locks in a (non-Unknown)
confirmed name. -/
theorem observe_entry_confirms (t : Track) (i : ObsInput)
    (h : (observe t i).entry_event = true) :
    (observe t i).track.confirmed_name ≠ "Unknown" := by
  unfold observe at h ⊢
  cases hm : majority (dequeAppend t.predictions (appendedPred i)) with
  | none => simp [hm] at h
  | some c =>
      by_cases h1 : t.confirmed_name = "Unknown"
      · by_cases h2 : c = "Unknown"
        · simp [hm, h1, h2] at h
        · by_cases h3 : CONFIRMATION_THRESHOLD ≤ t.confirmation_streak + 1
          · simp [hm, h1, h2, h3]
          · simp [hm, h1, h2, h3] at h
      · simp [hm, h1] at h

/-- Over any run, the number of entry events is at most one, and zero when
the track is already confirmed at the start. -/
theorem runObserve_events_le (is : List ObsInput) (t : Track) :
    (runObserve t is).2 ≤ (if t.confirmed_name = "Unknown" then 1 else 0) := by
  induction is generalizing t with
  | nil => simp [runObserve]
  | cons i is ih =>
      simp only [runObserve]
      by_cases h : t.confirmed_name = "Unknown"
      · rw [if_pos h]
        by_cases h2 : (observe t i).track.confirmed_name = "Unknown"
        · have he : (observe t i).entry_event = false := by
            by_contra hc
            exact observe_entry_confirms t i (by simpa using hc) h2
          have htail := ih (observe t i).track
          rw [if_pos h2] at htail
          simp [he]
          omega
        · have htail := ih (observe t i).track
          rw [if_neg h2] at htail
          have : (if (observe t i).entry_event then 1 else 0) ≤ 1 := by
            split <;> omega
          omega
      · rw [if_neg h]
        have hf := observe_confirmed_frozen t i h
        have htail := ih (observe t i).track
        rw [hf.1, if_neg h] at htail
        simp [hf.2]
        omega

/-- C3 counterexample: with majority-vote trace
["Alice", "Alice", "Unknown", "Alice"], the code's confirmation_streak is
3 after the fourth frame (it increments on every non-Unknown majority and
is never reset), while the number of most-recent consecutive frames whose
majority candidate is the same non-Unknown name is 1. -/
theorem C3_streak_counterexample :
    (runObserve freshTrack
      [⟨"Alice", 1, 0⟩, ⟨"Unknown", 1, 0⟩, ⟨"Unknown", 1, 0⟩, ⟨"Alice", 1, 0⟩]
      ).1.confirmation_streak = 3 ∧
    majorityTrace freshTrack
      [⟨"Alice", 1, 0⟩, ⟨"Unknown", 1, 0⟩, ⟨"Unknown", 1, 0⟩, ⟨"Alice", 1, 0⟩]
      = ["Alice", "Alice", "Unknown", "Alice"] ∧
    trailingSameStreak ["Alice", "Alice", "Unknown", "Alice"] = 1 ∧
    (3 : Nat) ≠ 1 := by
  refine ⟨by decide, by decide, by decide, by decide⟩

/-- C3 amended: after each observation of a still-unconfirmed track,
confirmation_streak increases by exactly one when the majority-vote
candidate is non-Unknown (any non-Unknown name, not necessarily the same
one as before), and is left unchanged — never reset — when the majority
candidate is Unknown. -/
theorem C3_streak_amended (t : Track) (i : ObsInput)
    (h : t.confirmed_name = "Unknown") :
    (observe t i).track.confirmation_streak =
      (match majorityAfter t i with
        | none => t.confirmation_streak
        | some m =>
            if m = "Unknown" then t.confirmation_streak
            else t.confirmation_streak + 1) := by
  unfold observe majorityAfter
  cases hm : majority (dequeAppend t.predictions (appendedPred i)) with
  | none => simp [hm]
  | some c =>
      by_cases h2 : c = "Unknown"
      · simp [hm, h, h2]
      · by_cases h3 : CONFIRMATION_THRESHOLD ≤ t.confirmation_streak + 1
        · simp [hm, h, h2, h3]
        · simp [hm, h, h2, h3]

/-- C3 witness: a fresh track observing "Alice" above threshold has
majority "Alice" and streak 1. -/
theorem C3_streak_amended_witness :
    (observe freshTrack ⟨"Alice", 1, 0⟩).track.confirmation_streak = 1 :=
  (C3_streak_amended freshTrack ⟨"Alice", 1, 0⟩ rfl).trans (by decide)

/-- C6: once a track's confirmed_name is a non-Unknown value, no later
sequence of observations changes it. -/
theorem C6_confirmed_name_monotone (t : Track) (is : List ObsInput)
    (h : t.confirmed_name ≠ "Unknown") :
    (runObserve t is).1.confirmed_name = t.confirmed_name := by
  induction is generalizing t with
  | nil => rfl
  | cons i is ih =>
      have hf := observe_confirmed_frozen t i h
      have := ih (observe t i).track (by rw [hf.1]; exact h)
      simp only [runObserve]
      rw [this, hf.1]

/-- C6 witness: a track confirmed as "Alice" stays "Alice" under two more
observations of "Bob". -/
theorem C6_confirmed_name_monotone_witness :
    (runObserve { freshTrack with confirmed_name := "Alice" }
      [⟨"Bob", 1, 0⟩, ⟨"Bob", 1, 0⟩]).1.confirmed_name = "Alice" :=
  C6_confirmed_name_monotone { freshTrack with confirmed_name := "Alice" }
    [⟨"Bob", 1, 0⟩, ⟨"Bob", 1, 0⟩] (by decide)

/-- C7: over the entire lifetime of a track (created fresh, then observed
any number of times), the one-time entry event (log_event KNOWN_PERSON_ENTRY
plus welcome) fires at most once. -/
theorem C7_entry_event_at_most_once (is : List ObsInput) :
    (runObserve freshTrack is).2 ≤ 1 := by
  have h := runObserve_events_le is freshTrack
  simpa using h

/-! ## ReinforcementTracker (src/reinforcement_learning/hitl_trainer.py)

Python dicts are embedded as insertion-ordered association lists (updates
keep the key's position, new keys append — exactly dict semantics), floats
as exact rationals, and `datetime` timestamps are dropped: no branch of the
tracker logic reads them. -/

/-- Dict membership/lookup: `m[k]` when `k in m`. -/
def alistLookup {α : Type} (m : List (String × α)) (k : String) : Option α :=
  match m.find? (fun p => p.1 == k) with
  | some p => some p.2
  | none => none

/-- Dict assignment `m[k] = v`: update in place or append a new key. -/
def alistInsert {α : Type} (m : List (String × α)) (k : String) (v : α) :
    List (String × α) :=
  match m with
  | [] => [(k, v)]
  | p :: ps => if p.1 == k then (k, v) :: ps else p :: alistInsert ps k v

/-- One `person_stats` record (hitl_trainer.py lines 64-70). -/
structure PersonStats where
  correct : Nat
  incorrect : Nat
  total : Nat
  avg_similarity : ℚ
  confidence_sum : ℚ
deriving DecidableEq

/-- The defaultdict default: all-zero statistics. -/
def defaultStats : PersonStats :=
  { correct := 0, incorrect := 0, total := 0
    avg_similarity := 0, confidence_sum := 0 }

/-- One pending prediction awaiting feedback (hitl_trainer.py lines 94-100). -/
structure Pending where
  embedding : List ℚ
  predicted : String
  similarity : ℚ
  frame_id : Nat
deriving DecidableEq

/-- One immutable feedback record (hitl_trainer.py lines 193-203,
with the wall-clock timestamp abstracted away). -/
structure FeedbackEntry where
  frame_id : Nat
  predicted : String
  actual : String
  is_correct : Bool
  similarity : ℚ
  reward : ℚ
  old_threshold : ℚ
  new_threshold : ℚ
deriving DecidableEq

/-- The mutable state of a ReinforcementTracker (hitl_trainer.py
__init__, lines 37-78; session_start is abstracted away). -/
structure RLState where
  learning_rate : ℚ
  min_threshold : ℚ
  max_threshold : ℚ
  threshold : ℚ
  pending_feedback : List Pending
  max_pending : Nat
  feedback_history : List FeedbackEntry
  person_thresholds : List (String × ℚ)
  person_stats : List (String × PersonStats)
  similarity_correct : List ℚ
  similarity_incorrect : List ℚ
  session_feedback_count : Nat
deriving DecidableEq

/-- `ReinforcementTracker.__init__`. -/
def RLInit (learning_rate min_thr max_thr initial_threshold : ℚ)
    (max_pending : Nat) : RLState :=
  { learning_rate := learning_rate
    min_threshold := min_thr
    max_threshold := max_thr
    threshold := initial_threshold
    pending_feedback := []
    max_pending := max_pending
    feedback_history := []
    person_thresholds := []
    person_stats := []
    similarity_correct := []
    similarity_incorrect := []
    session_feedback_count := 0 }

/-- `log_prediction`: append to the pending buffer, then pop the oldest
entry when the buffer exceeds `max_pending` (lines 80-106). -/
def log_prediction (s : RLState) (embedding : List ℚ) (predicted_name : String)
    (similarity : ℚ) (frame_id : Nat) : RLState :=
  let buf := s.pending_feedback ++
    [{ embedding := embedding
       predicted := predicted_name
       similarity := similarity
       frame_id := frame_id }]
  { s with pending_feedback := if s.max_pending < buf.length then buf.drop 1 else buf }

/-- The value `provide_feedback` returns: the not-found failure dict, or
the success dict (its message string is not modelled). -/
inductive FBResult where
  | notFound (frame_id : Nat)
  | ok (reward old_threshold new_threshold : ℚ) (predicted actual : String)
      (similarity person_accuracy : ℚ)
deriving DecidableEq

/-- `provide_feedback(frame_id, is_correct, true_name)`, lines 108-223:
look up the pending prediction, update the global threshold, the per-person
statistics and override, append to feedback_history, and drop the frame
from the pending buffer.  Python's `true_name or "Unknown"` maps the empty
string and None to "Unknown". -/
def provide_feedback (s : RLState) (frame_id : Nat) (is_correct : Bool)
    (true_name : Option String) : FBResult × RLState :=
  match s.pending_feedback.find? (fun p => p.frame_id == frame_id) with
  | none => (FBResult.notFound frame_id, s)
  | some pred =>
      let reward : ℚ := if is_correct then 1 else -1
      let predicted_name := pred.predicted
      let similarity := pred.similarity
      let actual_name :=
        if is_correct then predicted_name
        else
          match true_name with
          | some n => if n == "" then "Unknown" else n
          | none => "Unknown"
      let old_threshold := s.threshold
      let threshold1 :=
        if is_correct then
          if similarity < s.threshold + 1/10 then
            max s.min_threshold
              (s.threshold + (-s.learning_rate * (s.threshold - similarity)))
          else s.threshold
        else
          min s.max_threshold (s.threshold + s.learning_rate * (1 + similarity))
      let stats0 := (alistLookup s.person_stats actual_name).getD defaultStats
      let total := stats0.total + 1
      let confidence_sum := stats0.confidence_sum + similarity
      let stats1 : PersonStats :=
        { stats0 with
          total := total
          confidence_sum := confidence_sum
          avg_similarity := confidence_sum / (total : ℚ) }
      let stats2 :=
        if is_correct then { stats1 with correct := stats1.correct + 1 }
        else { stats1 with incorrect := stats1.incorrect + 1 }
      let simC :=
        if is_correct then s.similarity_correct ++ [similarity]
        else s.similarity_correct
      let simI :=
        if is_correct then s.similarity_incorrect
        else s.similarity_incorrect ++ [similarity]
      let accuracy : ℚ :=
        if 0 < stats2.total then (stats2.correct : ℚ) / (stats2.total : ℚ) else 0
      let pts :=
        if 5 ≤ stats2.total then
          if accuracy < 3/4 then
            alistInsert s.person_thresholds actual_name
              (min s.max_threshold (threshold1 + 8/100))
          else if 19/20 < accuracy ∧ 10 ≤ stats2.total then
            alistInsert s.person_thresholds actual_name
              (max s.min_threshold (threshold1 - 5/100))
          else
            match alistLookup s.person_thresholds actual_name with
            | some v =>
                alistInsert s.person_thresholds actual_name
                  (7/10 * v + 3/10 * threshold1)
            | none => s.person_thresholds
        else s.person_thresholds
      let entry : FeedbackEntry :=
        { frame_id := frame_id
          predicted := predicted_name
          actual := actual_name
          is_correct := is_correct
          similarity := similarity
          reward := reward
          old_threshold := old_threshold
          new_threshold := threshold1 }
      ( FBResult.ok reward old_threshold threshold1 predicted_name actual_name
          similarity accuracy
      , { s with
          threshold := threshold1
          person_stats := alistInsert s.person_stats actual_name stats2
          similarity_correct := simC
          similarity_incorrect := simI
          person_thresholds := pts
          feedback_history := s.feedback_history ++ [entry]
          session_feedback_count := s.session_feedback_count + 1
          pending_feedback :=
            s.pending_feedback.filter (fun p => p.frame_id != frame_id) } )

/-- `get_threshold(person_name)`, lines 247-259.  Python truthiness: the
override is consulted only for a non-None, non-empty name. -/
def get_threshold (s : RLState) (person_name : Option String) : ℚ :=
  match person_name with
  | none => s.threshold
  | some n =>
      if n != "" then
        match alistLookup s.person_thresholds n with
        | some v => v
        | none => s.threshold
      else s.threshold

/-- The dict written by `save` (lines 351-362).  Note: it has no field for
the pending buffer.  The version string and timestamp are not modelled. -/
structure SaveData where
  threshold : ℚ
  person_thresholds : List (String × ℚ)
  person_stats : List (String × PersonStats)
  feedback_history : List FeedbackEntry
  similarity_correct : List ℚ
  similarity_incorrect : List ℚ
  learning_rate : ℚ
  min_threshold : ℚ
  max_threshold : ℚ
deriving DecidableEq

/-- `save(path)`: the persisted blob, as a pure function of the state. -/
def RLsave (s : RLState) : SaveData :=
  { threshold := s.threshold
    person_thresholds := s.person_thresholds
    person_stats := s.person_stats
    feedback_history := s.feedback_history
    similarity_correct := s.similarity_correct
    similarity_incorrect := s.similarity_incorrect
    learning_rate := s.learning_rate
    min_threshold := s.min_threshold
    max_threshold := s.max_threshold }

/-- `load(path)` on a successfully read blob (lines 386-406): restore the
saved fields; the pending buffer is not touched. -/
def RLload (s : RLState) (d : SaveData) : RLState :=
  { s with
    threshold := d.threshold
    person_thresholds := d.person_thresholds
    person_stats := d.person_stats
    feedback_history := d.feedback_history
    similarity_correct := d.similarity_correct
    similarity_incorrect := d.similarity_incorrect
    learning_rate := d.learning_rate
    min_threshold := d.min_threshold
    max_threshold := d.max_threshold }

/-- The C1 failing input: bounds [0.65, 0.92], learning rate 0.02, global
threshold at the upper bound 0.92 (within bounds, no person overrides),
and one pending prediction with frame_id 1 and similarity 0.95. -/
def sBugC1 : RLState :=
  log_prediction (RLInit (1/50) (13/20) (23/25) (23/25) 100) [] "Alice" (19/20) 1

/-- C1: the threshold-bounds invariant FAILS in the code.  From a state
within bounds (threshold = max_threshold = 0.92), one correct feedback
with similarity 0.95 passes the borderline guard (0.95 < 0.92 + 0.1) and
the update `max(min_threshold, threshold - lr*(threshold - similarity))`
applies only a lower clamp, so the global threshold becomes
0.9206 = 4603/5000 > 0.92 = max_threshold. -/
theorem C1_threshold_exceeds_max :
    sBugC1.min_threshold ≤ sBugC1.threshold ∧
    sBugC1.threshold ≤ sBugC1.max_threshold ∧
    (provide_feedback sBugC1 1 true none).2.threshold = 4603/5000 ∧
    sBugC1.max_threshold < (provide_feedback sBugC1 1 true none).2.threshold := by
  refine ⟨by decide, by decide, by decide, by decide⟩

/-- The C4 scenario start state: defaults lr = 0.02, bounds [0.65, 0.92],
threshold 0.80, with frame 1 (similarity 0.82) and frame 2 (similarity
0.90) pending. -/
def s4init : RLState :=
  log_prediction
    (log_prediction (RLInit (1/50) (13/20) (23/25) (4/5) 100) [] "Alice" (41/50) 1)
    [] "Bob" (9/10) 2

/-- C4: the worked update-rule scenario.  Feedback (similarity 0.82,
correct) moves the global threshold from 0.80 to exactly
0.80 - 0.02*(0.80 - 0.82) = 0.8004 = 2001/2500; a subsequent feedback
(similarity 0.90, incorrect) moves it to exactly
0.8004 + 0.02*(1 + 0.90) = 0.8384 = 524/625. -/
theorem C4_update_rule_scenario :
    (provide_feedback s4init 1 true none).2.threshold = 2001/2500 ∧
    (provide_feedback (provide_feedback s4init 1 true none).2 2 false none
      ).2.threshold = 524/625 := by
  refine ⟨by decide, by decide⟩

/-- One round of "prediction logged for frame k, then incorrect feedback
with no true name" — the resolved actual name is "Unknown". -/
def fbRound (s : RLState) (k : Nat) : RLState :=
  (provide_feedback (log_prediction s [] "Alice" 0 k) k false none).2

/-- A reachable state in which the literal name "Unknown" carries a
per-person override: five incorrect feedbacks with no ground-truth name
accumulate person_stats["Unknown"].total = 5 at accuracy 0 < 0.75,
installing the override min(0.92, 0.90 + 0.08) = 0.92. -/
def s5unk : RLState :=
  fbRound (fbRound (fbRound (fbRound (fbRound
    (RLInit (1/50) (13/20) (23/25) (4/5) 100) 1) 2) 3) 4) 5

/-- C5 counterexample: `get_threshold` has no non-Unknown check.  In the
reachable state `s5unk` the name "Unknown" holds the override 0.92 while
the global threshold is 0.90, and `get_threshold("Unknown")` returns the
override, not the global threshold as the claim requires. -/
theorem C5_unknown_override_counterexample :
    alistLookup s5unk.person_thresholds "Unknown" = some (23/25) ∧
    s5unk.threshold = 9/10 ∧
    get_threshold s5unk (some "Unknown") = 23/25 ∧
    get_threshold s5unk (some "Unknown") ≠ s5unk.threshold := by
  refine ⟨by decide, by decide, by decide, by decide⟩

/-- C5 amended: `get_threshold` returns the per-person override exactly
when a name is given, the name is truthy (non-empty — with no special
case for "Unknown"), and an override exists for it; in every other case
(no name, empty name, or no override present) it returns the global
threshold. -/
theorem C5_get_threshold_amended (s : RLState) (n : String) (v : ℚ) :
    (get_threshold s none = s.threshold) ∧
    (get_threshold s (some "") = s.threshold) ∧
    (n ≠ "" → alistLookup s.person_thresholds n = some v →
      get_threshold s (some n) = v) ∧
    (n ≠ "" → alistLookup s.person_thresholds n = none →
      get_threshold s (some n) = s.threshold) := by
  refine ⟨rfl, rfl, ?_, ?_⟩
  · intro hn hv
    simp [get_threshold, hn, hv]
  · intro hn hv
    simp [get_threshold, hn, hv]

/-- C5 amended witness: with an override stored for "Unknown", the
override (not the global threshold) is returned. -/
theorem C5_get_threshold_amended_witness :
    get_threshold
      { RLInit (1/50) (13/20) (23/25) (4/5) 100 with
        person_thresholds := [("Unknown", 22/25)] } (some "Unknown") = 22/25 :=
  (C5_get_threshold_amended
    { RLInit (1/50) (13/20) (23/25) (4/5) 100 with
      person_thresholds := [("Unknown", 22/25)] } "Unknown" (22/25)
    ).2.2.1 (by decide) (by decide)

/-- C8: feedback for a frame_id absent from the pending buffer returns
the not-found failure and leaves the whole controller state unchanged. -/
theorem C8_feedback_not_found (s : RLState) (fid : Nat) (is_correct : Bool)
    (true_name : Option String)
    (h : ∀ p ∈ s.pending_feedback, p.frame_id ≠ fid) :
    (provide_feedback s fid is_correct true_name).1 = FBResult.notFound fid ∧
    (provide_feedback s fid is_correct true_name).2 = s := by
  have hf : s.pending_feedback.find? (fun p => p.frame_id == fid) = none := by
    rw [List.find?_eq_none]
    intro p hp
    simpa using h p hp
  unfold provide_feedback
  rw [hf]
  exact ⟨rfl, rfl⟩

/-- C8 witness: with only frame 5 pending, feedback on frame 3 fails with
not-found and changes nothing. -/
theorem C8_feedback_not_found_witness :
    (provide_feedback
      (log_prediction (RLInit (1/50) (13/20) (23/25) (4/5) 100) [] "Alice" (41/50) 5)
      3 true none).1 = FBResult.notFound 3 ∧
    (provide_feedback
      (log_prediction (RLInit (1/50) (13/20) (23/25) (4/5) 100) [] "Alice" (41/50) 5)
      3 true none).2 =
      log_prediction (RLInit (1/50) (13/20) (23/25) (4/5) 100) [] "Alice" (41/50) 5 :=
  C8_feedback_not_found
    (log_prediction (RLInit (1/50) (13/20) (23/25) (4/5) 100) [] "Alice" (41/50) 5)
    3 true none (by decide)

/-- C9: save followed by load into a freshly constructed controller
reproduces the global threshold, the person_thresholds mapping, and the
length of feedback_history (the history itself, in fact). -/
theorem C9_save_load_round_trip (s : RLState) (lr minT maxT initT : ℚ) (mp : Nat) :
    (RLload (RLInit lr minT maxT initT mp) (RLsave s)).threshold = s.threshold ∧
    (RLload (RLInit lr minT maxT initT mp) (RLsave s)).person_thresholds
      = s.person_thresholds ∧
    (RLload (RLInit lr minT maxT initT mp) (RLsave s)).feedback_history.length
      = s.feedback_history.length :=
  ⟨rfl, rfl, rfl⟩

/-- C10: the saved blob carries no pending buffer and load leaves the
pending buffer untouched, so after save followed by load into a fresh
controller the pending buffer is empty and provide_feedback returns the
not-found failure (changing nothing) for every frame_id whatsoever —
in particular for every frame_id logged before the save. -/
theorem C10_pending_not_persisted (s : RLState) (lr minT maxT initT : ℚ)
    (mp : Nat) (fid : Nat) (is_correct : Bool) (true_name : Option String) :
    (RLload (RLInit lr minT maxT initT mp) (RLsave s)).pending_feedback = [] ∧
    (provide_feedback (RLload (RLInit lr minT maxT initT mp) (RLsave s))
      fid is_correct true_name).1 = FBResult.notFound fid ∧
    (provide_feedback (RLload (RLInit lr minT maxT initT mp) (RLsave s))
      fid is_correct true_name).2
      = RLload (RLInit lr minT maxT initT mp) (RLsave s) :=
  ⟨rfl, rfl, rfl⟩

end FaceRec
